import Mathlib

/-!
Shallow embedding of `roverrobotics_driver/library/librover/src/mecanum_robot.cpp`
(namespace `RoverRobotics`, class `MecanumRobot`): the shared robot-state record,
the trim manager, the telemetry demultiplexer, one tick of each of the two
periodic loops, and construction.  External collaborators (motion controller,
codec, transport, persistent store) enter as parameters or as the data they
exchange with the core, exactly at the boundaries the source uses.
Real-valued quantities (velocities, trim, scales) are embedded as rationals.
-/

namespace RoverRobotics

/-- Modelled from the spec: the constants live in the class header, which is not
part of the sources; the spec gives the staleness threshold default of 1000 ms. -/
def CONTROL_LOOP_TIMEOUT_MS : Int := 1000

/-- Modelled from the spec: neutral wheel setpoint ("all-zero", "zero wheel
setpoints"); the header defining `MOTOR_NEUTRAL_` is not part of the sources. -/
def MOTOR_NEUTRAL : ℚ := 0

/-- Modelled from the spec: the trim bound `MAX_CURVATURE_CORRECTION_` is defined
in the missing header; the spec's concrete scenario fixes it at 0.5. -/
def MAX_CURVATURE_CORRECTION : ℚ := 1/2

/-- Modelled from the spec: the `VESC_IDS` enum lives in the missing header; the
spec fixes the order front-left, front-right, back-left, back-right, and the
source's `for` loop requires the four identifiers to be consecutive. -/
def VESC_IDS.FRONT_LEFT : ℕ := 0

/-- Modelled from the spec: see `VESC_IDS.FRONT_LEFT`. -/
def VESC_IDS.FRONT_RIGHT : ℕ := 1

/-- Modelled from the spec: see `VESC_IDS.FRONT_LEFT`. -/
def VESC_IDS.BACK_LEFT : ℕ := 2

/-- Modelled from the spec: see `VESC_IDS.FRONT_LEFT`. -/
def VESC_IDS.BACK_RIGHT : ℕ := 3

/-- `Control::robot_velocities` as exchanged with the motion controller. -/
structure robot_velocities where
  linear_velocity : ℚ
  trans_velocity : ℚ
  angular_velocity : ℚ
deriving DecidableEq, Repr

/-- `Control::motor_data`: one value per wheel (fl, fr, rl, rr). -/
structure motor_data where
  fl : ℚ
  fr : ℚ
  rl : ℚ
  rr : ℚ
deriving DecidableEq, Repr

/-- The command-type flags used by `vescArray_.buildCommandMessage`. -/
inductive vescPacketFlags where
  | CURRENT
  | DUTY
deriving DecidableEq, Repr

/-- The decoded inbound telemetry record produced by the codec
(`vescArray_.parseReceivedMessage`). -/
structure vescChannelMessage where
  dataValid : Bool
  vescId : ℕ
  rpm : ℚ
  current : ℚ
deriving DecidableEq, Repr

/-- The outbound per-wheel command record handed to the codec
(`vescArray_.buildCommandMessage`). -/
structure vescChannelCommand where
  vescId : ℕ
  commandType : vescPacketFlags
  commandValue : ℚ
deriving DecidableEq, Repr

/-- The shared `robotData robotstatus_` record, restricted to the fields this
translation unit reads or writes. -/
structure robotData where
  cmd_linear_vel : ℚ
  cmd_angular_vel : ℚ
  cmd_trans_vel : ℚ
  cmd_ts : Int
  linear_vel : ℚ
  trans_vel : ℚ
  angular_vel : ℚ
  motor1_rpm : ℚ
  motor1_id : ℕ
  motor1_current : ℚ
  motor2_rpm : ℚ
  motor2_id : ℕ
  motor2_current : ℚ
  motor3_rpm : ℚ
  motor3_id : ℕ
  motor3_current : ℚ
  motor4_rpm : ℚ
  motor4_id : ℕ
  motor4_current : ℚ
deriving DecidableEq, Repr

/-- `robotstatus_ = {0}`: the zero-initialized robot-status record. -/
def robotData.zeroed : robotData :=
  { cmd_linear_vel := 0, cmd_angular_vel := 0, cmd_trans_vel := 0, cmd_ts := 0
    linear_vel := 0, trans_vel := 0, angular_vel := 0
    motor1_rpm := 0, motor1_id := 0, motor1_current := 0
    motor2_rpm := 0, motor2_id := 0, motor2_current := 0
    motor3_rpm := 0, motor3_id := 0, motor3_current := 0
    motor4_rpm := 0, motor4_id := 0, motor4_current := 0 }

/-- The `motors_speeds_` array, one signed setpoint per wheel position. -/
structure MotorSpeeds where
  front_left : ℚ
  front_right : ℚ
  back_left : ℚ
  back_right : ℚ
deriving DecidableEq, Repr

/-- `motors_speeds_[vid]`: look a wheel setpoint up by VESC identifier. -/
def MotorSpeeds.at (m : MotorSpeeds) (vid : ℕ) : ℚ :=
  if vid = VESC_IDS.FRONT_LEFT then m.front_left
  else if vid = VESC_IDS.FRONT_RIGHT then m.front_right
  else if vid = VESC_IDS.BACK_LEFT then m.back_left
  else if vid = VESC_IDS.BACK_RIGHT then m.back_right
  else 0

/-- The persistent parameter store (`Utilities::PersistentParams`): a key/value
file, embedded as an association list with the newest write first. -/
def PersistentParams := List (String × ℚ)

/-- `persistent_params_->read_param(key)`. -/
def read_param (store : PersistentParams) (key : String) : Option ℚ :=
  (List.find? (fun kv => kv.1 = key) store).map (fun kv => kv.2)

/-- `persistent_params_->write_param(key, value)`. -/
def write_param (store : PersistentParams) (key : String) (v : ℚ) :
    PersistentParams :=
  (key, v) :: store

/-- The mutable state of one `MecanumRobot` object: the shared status record,
the emergency-stop flag, the per-wheel setpoints, the trim manager's scalar and
the two per-side scale factors (`left_trim_`, `right_trim_`), and the backing
persistent store. -/
structure MecanumRobot where
  robotstatus : robotData
  estop : Bool
  motors_speeds : MotorSpeeds
  trimvalue : ℚ
  left_trim : ℚ
  right_trim : ℚ
  params_store : PersistentParams

namespace MecanumRobot

/-- `MecanumRobot::update_drivetrim(double delta)`: accept the delta only when
the candidate trim lies strictly inside the open correction interval; on
acceptance recompute the per-side scales and write the new trim through to the
persistent store under key "trim". -/
def update_drivetrim (delta : ℚ) (r : MecanumRobot) : MecanumRobot :=
  if -MAX_CURVATURE_CORRECTION < r.trimvalue + delta ∧
      r.trimvalue + delta < MAX_CURVATURE_CORRECTION then
    let t := r.trimvalue + delta
    if 0 ≤ t then
      { r with trimvalue := t, left_trim := 1, right_trim := 1 - t
               params_store := write_param r.params_store "trim" t }
    else
      { r with trimvalue := t, right_trim := 1, left_trim := 1 + t
               params_store := write_param r.params_store "trim" t }
  else r

/-- `MecanumRobot::load_persistent_params()`: read key "trim" and, when present,
apply it through `update_drivetrim`. -/
def load_persistent_params (r : MecanumRobot) : MecanumRobot :=
  match read_param r.params_store "trim" with
  | some v => update_drivetrim v r
  | none => r

/-- The constructor `MecanumRobot::MecanumRobot`, restricted to the state this
embedding tracks: zero the status record, clear estop, neutral all four
setpoints, then load persisted parameters.  Modelled from the spec: the initial
trim value 0 and default scales 1 are member initializers in the missing header
("if absent, defaults to zero/no correction"). -/
def freshFrom (store : PersistentParams) : MecanumRobot :=
  { robotstatus := robotData.zeroed
    estop := false
    motors_speeds :=
      { front_left := MOTOR_NEUTRAL, front_right := MOTOR_NEUTRAL
        back_left := MOTOR_NEUTRAL, back_right := MOTOR_NEUTRAL }
    trimvalue := 0
    left_trim := 1
    right_trim := 1
    params_store := store }

/-- See `freshFrom`: constructing runs the member initializers and then
`load_persistent_params()`. -/
def construct (store : PersistentParams) : MecanumRobot :=
  load_persistent_params (freshFrom store)

/-- `MecanumRobot::send_estop(bool estop)`. -/
def send_estop (e : Bool) (r : MecanumRobot) : MecanumRobot :=
  { r with estop := e }

/-- `MecanumRobot::set_robot_velocity(double *control_array)`: the four array
slots are passed positionally; the source reads slots 0, 1 and 3 and stamps the
command time with "now". -/
def set_robot_velocity (c0 c1 _c2 c3 : ℚ) (now : Int) (r : MecanumRobot) :
    MecanumRobot :=
  { r with robotstatus :=
      { r.robotstatus with
          cmd_linear_vel := c0
          cmd_angular_vel := c1
          cmd_trans_vel := c3
          cmd_ts := now } }

/-- `MecanumRobot::unpack_comm_response`, taken at the codec boundary: the raw
bytes have already been parsed by `vescArray_.parseReceivedMessage` into a
`vescChannelMessage`; route a valid message by `vescId` into the matching
wheel's telemetry slots. -/
def unpack_comm_response (parsedMsg : vescChannelMessage) (r : MecanumRobot) :
    MecanumRobot :=
  if parsedMsg.dataValid then
    if parsedMsg.vescId = VESC_IDS.FRONT_LEFT then
      { r with robotstatus :=
          { r.robotstatus with motor1_rpm := parsedMsg.rpm
                               motor1_id := parsedMsg.vescId
                               motor1_current := parsedMsg.current } }
    else if parsedMsg.vescId = VESC_IDS.FRONT_RIGHT then
      { r with robotstatus :=
          { r.robotstatus with motor2_rpm := parsedMsg.rpm
                               motor2_id := parsedMsg.vescId
                               motor2_current := parsedMsg.current } }
    else if parsedMsg.vescId = VESC_IDS.BACK_LEFT then
      { r with robotstatus :=
          { r.robotstatus with motor3_rpm := parsedMsg.rpm
                               motor3_id := parsedMsg.vescId
                               motor3_current := parsedMsg.current } }
    else if parsedMsg.vescId = VESC_IDS.BACK_RIGHT then
      { r with robotstatus :=
          { r.robotstatus with motor4_rpm := parsedMsg.rpm
                               motor4_id := parsedMsg.vescId
                               motor4_current := parsedMsg.current } }
    else r
  else r

/-- The body of `MecanumRobot::send_command` for one wheel: snapshot the signed
setpoint, derive the low-power hold flag, and build the codec command record. -/
def send_command_message (r : MecanumRobot) (vid : ℕ) : vescChannelCommand :=
  { vescId := vid
    commandType :=
      if r.motors_speeds.at vid = MOTOR_NEUTRAL ∧
          r.robotstatus.linear_vel = MOTOR_NEUTRAL ∧
          r.robotstatus.trans_vel = MOTOR_NEUTRAL ∧
          r.robotstatus.angular_vel = MOTOR_NEUTRAL
      then .CURRENT else .DUTY
    commandValue :=
      if r.motors_speeds.at vid = MOTOR_NEUTRAL ∧
          r.robotstatus.linear_vel = MOTOR_NEUTRAL ∧
          r.robotstatus.trans_vel = MOTOR_NEUTRAL ∧
          r.robotstatus.angular_vel = MOTOR_NEUTRAL
      then MOTOR_NEUTRAL else r.motors_speeds.at vid }

/-- One iteration of the `MecanumRobot::send_command` loop: the messages written
to the transport, one per wheel, for `vid` from `FRONT_LEFT` to `BACK_RIGHT`. -/
def send_command_tick (r : MecanumRobot) : List vescChannelCommand :=
  [VESC_IDS.FRONT_LEFT, VESC_IDS.FRONT_RIGHT,
   VESC_IDS.BACK_LEFT, VESC_IDS.BACK_RIGHT].map (send_command_message r)

/-- `MecanumRobot::cycle_robot_mode()`: only closed-loop control for 4WD. -/
def cycle_robot_mode (r : MecanumRobot) : Int × MecanumRobot :=
  (-1, r)

end MecanumRobot

/-- The external `Control::MecanumMotionController`, at the interface the core
uses per tick: setpoint computation and velocity estimation. -/
structure MecanumMotionController where
  runMotionControl : robot_velocities → motor_data → motor_data → motor_data
  getMeasuredVelocities : motor_data → robot_velocities

namespace MecanumRobot

/-- One iteration of `MecanumRobot::motors_control_loop`: snapshot commands and
wheel telemetry, then either run motion control on the commanded velocities
(fresh command, no estop) or command the robot to stop (neutral setpoints,
motion control run on zero targets); in both branches refresh the measured
robot velocities from the wheel speeds. -/
def motors_control_tick (mc : MecanumMotionController) (time_now : Int)
    (r : MecanumRobot) : MecanumRobot :=
  let linear_vel_target := r.robotstatus.cmd_linear_vel
  let trans_vel_target := r.robotstatus.cmd_trans_vel
  let angular_vel_target := r.robotstatus.cmd_angular_vel
  let rpms : motor_data :=
    { fl := r.robotstatus.motor1_rpm, fr := r.robotstatus.motor2_rpm
      rl := r.robotstatus.motor3_rpm, rr := r.robotstatus.motor4_rpm }
  let time_from_msg := r.robotstatus.cmd_ts
  if r.estop = false ∧ time_now - time_from_msg ≤ CONTROL_LOOP_TIMEOUT_MS then
    let wheel_speeds := mc.runMotionControl
      { linear_velocity := linear_vel_target
        trans_velocity := trans_vel_target
        angular_velocity := angular_vel_target }
      { fl := 0, fr := 0, rl := 0, rr := 0 } rpms
    let velocities := mc.getMeasuredVelocities rpms
    { r with
        motors_speeds :=
          { front_left := wheel_speeds.fl, front_right := wheel_speeds.fr
            back_left := wheel_speeds.rl, back_right := wheel_speeds.rr }
        robotstatus :=
          { r.robotstatus with
              linear_vel := velocities.linear_velocity
              trans_vel := velocities.trans_velocity
              angular_vel := velocities.angular_velocity } }
  else
    let _wheel_speeds := mc.runMotionControl
      { linear_velocity := 0, trans_velocity := 0, angular_velocity := 0 }
      { fl := 0, fr := 0, rl := 0, rr := 0 } rpms
    let velocities := mc.getMeasuredVelocities rpms
    { r with
        motors_speeds :=
          { front_left := MOTOR_NEUTRAL, front_right := MOTOR_NEUTRAL
            back_left := MOTOR_NEUTRAL, back_right := MOTOR_NEUTRAL }
        robotstatus :=
          { r.robotstatus with
              linear_vel := velocities.linear_velocity
              trans_vel := velocities.trans_velocity
              angular_vel := velocities.angular_velocity } }

end MecanumRobot

/-- `MecanumRobot::register_comm_base(const char *device)`: the transport is
external, so CAN construction is a parameter that either yields a transport
handle or throws an integer; the "internal" branch is commented out in the
source and establishes nothing; a communication mode other than "CAN" throws
`-2`. -/
def register_comm_base (comm_type device : String)
    (commCanNew : String → Except Int Unit) : Except Int (Option Unit) :=
  if comm_type = "CAN" then
    if device ≠ "internal" then (commCanNew device).map some
    else Except.ok none
  else Except.error (-2)

/-! ## Theorems -/

open MecanumRobot

/-- Claim C2: `adjust_trim(delta)` with current trim `t` and candidate
`t + delta` commits the candidate and recomputes the per-side scales
(`left_scale = 1, right_scale = 1 - trim` for nonnegative trim, mirrored
otherwise) when the candidate lies strictly inside
`(-MAX_CORRECTION, MAX_CORRECTION)`, and is a complete no-op (state and store
untouched, no error) otherwise. -/
theorem update_drivetrim_spec (delta : ℚ) (r : MecanumRobot) :
    (-MAX_CURVATURE_CORRECTION < r.trimvalue + delta ∧
        r.trimvalue + delta < MAX_CURVATURE_CORRECTION →
      (r.update_drivetrim delta).trimvalue = r.trimvalue + delta ∧
      (0 ≤ r.trimvalue + delta →
        (r.update_drivetrim delta).left_trim = 1 ∧
        (r.update_drivetrim delta).right_trim = 1 - (r.trimvalue + delta)) ∧
      (r.trimvalue + delta < 0 →
        (r.update_drivetrim delta).left_trim = 1 + (r.trimvalue + delta) ∧
        (r.update_drivetrim delta).right_trim = 1)) ∧
    (¬(-MAX_CURVATURE_CORRECTION < r.trimvalue + delta ∧
        r.trimvalue + delta < MAX_CURVATURE_CORRECTION) →
      r.update_drivetrim delta = r) := by
  unfold update_drivetrim
  constructor
  · intro hin
    rw [if_pos hin]
    by_cases h0 : 0 ≤ r.trimvalue + delta
    · rw [if_pos h0]
      refine ⟨rfl, fun _ => ⟨rfl, rfl⟩, fun hneg => absurd h0 (not_le.mpr hneg)⟩
    · rw [if_neg h0]
      refine ⟨rfl, fun hpos => absurd hpos h0, fun _ => ⟨rfl, rfl⟩⟩
  · intro hout
    rw [if_neg hout]

/-- A trim state matching the spec's concrete scenario: current trim 0.45. -/
def trimExample : MecanumRobot :=
  { robotstatus := robotData.zeroed
    estop := false
    motors_speeds :=
      { front_left := 0, front_right := 0, back_left := 0, back_right := 0 }
    trimvalue := 9/20
    left_trim := 1
    right_trim := 11/20
    params_store := [] }

/-- Claim C2 witness: with `MAX_CORRECTION = 0.5` and trim 0.45,
`adjust_trim(0.1)` is rejected (trim stays 0.45) and `adjust_trim(0.04)` is
accepted, giving trim 0.49, left scale 1, right scale 0.51. -/
theorem update_drivetrim_spec_witness :
    (trimExample.update_drivetrim (1/10)).trimvalue = 9/20 ∧
    (trimExample.update_drivetrim (1/25)).trimvalue = 49/100 ∧
    (trimExample.update_drivetrim (1/25)).left_trim = 1 ∧
    (trimExample.update_drivetrim (1/25)).right_trim = 51/100 := by
  have hrej := (update_drivetrim_spec (1/10) trimExample).2
    (by norm_num [trimExample, MAX_CURVATURE_CORRECTION])
  have hacc := (update_drivetrim_spec (1/25) trimExample).1
    (by norm_num [trimExample, MAX_CURVATURE_CORRECTION])
  have hval : trimExample.trimvalue + 1/25 = 49/100 := by
    norm_num [trimExample]
  have hnn : (0 : ℚ) ≤ trimExample.trimvalue + 1/25 := by
    norm_num [trimExample]
  refine ⟨?_, ?_, ?_, ?_⟩
  · rw [hrej]; rfl
  · rw [hacc.1, hval]
  · exact (hacc.2.1 hnn).1
  · rw [(hacc.2.1 hnn).2, hval]; norm_num

/-- The trim-state invariant: trim strictly inside the correction interval and
the per-side scales given by the documented formula, each in `(0, 1]`, with the
side receiving nonnegative trim keeping scale 1. -/
def trimInvariant (r : MecanumRobot) : Prop :=
  -MAX_CURVATURE_CORRECTION < r.trimvalue ∧
  r.trimvalue < MAX_CURVATURE_CORRECTION ∧
  (0 ≤ r.trimvalue → r.left_trim = 1 ∧ r.right_trim = 1 - r.trimvalue) ∧
  (r.trimvalue < 0 → r.left_trim = 1 + r.trimvalue ∧ r.right_trim = 1) ∧
  0 < r.left_trim ∧ r.left_trim ≤ 1 ∧ 0 < r.right_trim ∧ r.right_trim ≤ 1

lemma trimInvariant_update (d : ℚ) (r : MecanumRobot)
    (h : trimInvariant r) : trimInvariant (r.update_drivetrim d) := by
  obtain ⟨h1, h2, h3, h4, h5, h6, h7, h8⟩ := h
  unfold update_drivetrim
  by_cases hin : -MAX_CURVATURE_CORRECTION < r.trimvalue + d ∧
      r.trimvalue + d < MAX_CURVATURE_CORRECTION
  · rw [if_pos hin]
    obtain ⟨hlo, hhi⟩ := hin
    rw [MAX_CURVATURE_CORRECTION] at hlo hhi
    by_cases h0 : 0 ≤ r.trimvalue + d
    · rw [if_pos h0]
      unfold trimInvariant MAX_CURVATURE_CORRECTION
      constructor
      · linarith
      refine ⟨by linarith, fun _ => ⟨rfl, rfl⟩, fun hneg => absurd h0 (not_le.mpr hneg), ?_⟩
      norm_num
      constructor <;> linarith
    · rw [if_neg h0]
      push_neg at h0
      unfold trimInvariant MAX_CURVATURE_CORRECTION
      constructor
      · linarith
      refine ⟨by linarith, fun hpos => absurd hpos (not_le.mpr h0), fun _ => ⟨rfl, rfl⟩, ?_⟩
      norm_num
      constructor <;> linarith
  · rw [if_neg hin]
    exact ⟨h1, h2, h3, h4, h5, h6, h7, h8⟩

/-- Claim C3: from the initial trim state (trim zero), after any finite
sequence of `adjust_trim` calls the trim value stays strictly inside
`(-MAX_CORRECTION, MAX_CORRECTION)` and the scales satisfy the documented
side formula, both scales lying in `(0, 1]` with the side receiving positive
trim keeping scale 1. -/
theorem update_drivetrim_sequence_invariant (ds : List ℚ) :
    trimInvariant
      (ds.foldl (fun r d => r.update_drivetrim d) (MecanumRobot.construct [])) := by
  have hinit : trimInvariant (MecanumRobot.construct []) := by
    unfold trimInvariant MecanumRobot.construct MecanumRobot.freshFrom
      load_persistent_params read_param MAX_CURVATURE_CORRECTION
    norm_num
  have step : ∀ (l : List ℚ) (r : MecanumRobot), trimInvariant r →
      trimInvariant (l.foldl (fun r d => r.update_drivetrim d) r) := by
    intro l
    induction l with
    | nil => exact fun r h => h
    | cons e es ihs => exact fun r h => ihs _ (trimInvariant_update e r h)
  exact step ds _ hinit

lemma freshFrom_params_store (s : PersistentParams) :
    (freshFrom s).params_store = s := rfl

/-- Claim C4: an accepted `adjust_trim` immediately writes the new trim under
key "trim" (a rejected delta leaves the store untouched); reconstructing a
fresh instance from the resulting store reproduces the same trim value and the
same per-side scales; and constructing from a store whose "trim" key is absent
leaves trim at zero with default scales. -/
theorem trim_roundtrip (d : ℚ) (r : MecanumRobot) (store : PersistentParams) :
    (-MAX_CURVATURE_CORRECTION < r.trimvalue + d ∧
        r.trimvalue + d < MAX_CURVATURE_CORRECTION →
      (r.update_drivetrim d).params_store =
        write_param r.params_store "trim" (r.trimvalue + d) ∧
      read_param (r.update_drivetrim d).params_store "trim" =
        some (r.trimvalue + d) ∧
      (MecanumRobot.construct (r.update_drivetrim d).params_store).trimvalue =
        (r.update_drivetrim d).trimvalue ∧
      (MecanumRobot.construct (r.update_drivetrim d).params_store).left_trim =
        (r.update_drivetrim d).left_trim ∧
      (MecanumRobot.construct (r.update_drivetrim d).params_store).right_trim =
        (r.update_drivetrim d).right_trim) ∧
    (¬(-MAX_CURVATURE_CORRECTION < r.trimvalue + d ∧
        r.trimvalue + d < MAX_CURVATURE_CORRECTION) →
      (r.update_drivetrim d).params_store = r.params_store) ∧
    (read_param store "trim" = none →
      (MecanumRobot.construct store).trimvalue = 0 ∧
      (MecanumRobot.construct store).left_trim = 1 ∧
      (MecanumRobot.construct store).right_trim = 1) := by
  refine ⟨?_, ?_, ?_⟩
  · intro hin
    have hstore : (r.update_drivetrim d).params_store =
        write_param r.params_store "trim" (r.trimvalue + d) := by
      unfold update_drivetrim
      rw [if_pos hin]
      by_cases h0 : 0 ≤ r.trimvalue + d
      · rw [if_pos h0]
      · rw [if_neg h0]
    have hread : read_param (r.update_drivetrim d).params_store "trim" =
        some (r.trimvalue + d) := by
      rw [hstore]
      unfold read_param write_param
      simp
    refine ⟨hstore, hread, ?_⟩
    have hload : MecanumRobot.construct (r.update_drivetrim d).params_store =
        update_drivetrim (r.trimvalue + d)
          (freshFrom (r.update_drivetrim d).params_store) := by
      unfold MecanumRobot.construct load_persistent_params
      rw [freshFrom_params_store, hread]
    rw [hload]
    have hfv : (freshFrom (r.update_drivetrim d).params_store).trimvalue = 0 := rfl
    have hcond : -MAX_CURVATURE_CORRECTION <
        (freshFrom (r.update_drivetrim d).params_store).trimvalue +
          (r.trimvalue + d) ∧
        (freshFrom (r.update_drivetrim d).params_store).trimvalue +
          (r.trimvalue + d) < MAX_CURVATURE_CORRECTION := by
      rw [hfv, zero_add]; exact hin
    have ha := (update_drivetrim_spec (r.trimvalue + d)
      (freshFrom (r.update_drivetrim d).params_store)).1 hcond
    have hb := (update_drivetrim_spec d r).1 hin
    refine ⟨by rw [ha.1, hb.1, hfv, zero_add], ?_, ?_⟩
    · by_cases h0 : 0 ≤ r.trimvalue + d
      · have h0' : 0 ≤ (freshFrom (r.update_drivetrim d).params_store).trimvalue +
            (r.trimvalue + d) := by rw [hfv, zero_add]; exact h0
        rw [(ha.2.1 h0').1, (hb.2.1 h0).1]
      · push_neg at h0
        have h0' : (freshFrom (r.update_drivetrim d).params_store).trimvalue +
            (r.trimvalue + d) < 0 := by rw [hfv, zero_add]; exact h0
        rw [(ha.2.2 h0').1, (hb.2.2 h0).1, hfv, zero_add]
    · by_cases h0 : 0 ≤ r.trimvalue + d
      · have h0' : 0 ≤ (freshFrom (r.update_drivetrim d).params_store).trimvalue +
            (r.trimvalue + d) := by rw [hfv, zero_add]; exact h0
        rw [(ha.2.1 h0').2, (hb.2.1 h0).2, hfv, zero_add]
      · push_neg at h0
        have h0' : (freshFrom (r.update_drivetrim d).params_store).trimvalue +
            (r.trimvalue + d) < 0 := by rw [hfv, zero_add]; exact h0
        rw [(ha.2.2 h0').2, (hb.2.2 h0).2]
  · intro hout
    unfold update_drivetrim
    rw [if_neg hout]
  · intro habsent
    unfold MecanumRobot.construct load_persistent_params
    rw [freshFrom_params_store, habsent]
    exact ⟨rfl, rfl, rfl⟩

/-- Claim C4 witness: from a freshly constructed instance with an empty store,
`adjust_trim(1/4)` stores trim 1/4 under key "trim", a reconstruction from that
store reproduces trim 1/4 with scales `(1, 3/4)`, and construction from the
empty store leaves trim 0 with scales `(1, 1)`. -/
theorem trim_roundtrip_witness :
    ((MecanumRobot.construct []).update_drivetrim (1/4)).params_store =
      [("trim", 1/4)] ∧
    (MecanumRobot.construct
        ((MecanumRobot.construct []).update_drivetrim (1/4)).params_store).trimvalue =
      ((MecanumRobot.construct []).update_drivetrim (1/4)).trimvalue ∧
    (MecanumRobot.construct []).trimvalue = 0 ∧
    (MecanumRobot.construct []).left_trim = 1 ∧
    (MecanumRobot.construct []).right_trim = 1 := by
  have h := trim_roundtrip (1/4) (MecanumRobot.construct []) []
  have hin : -MAX_CURVATURE_CORRECTION <
      (MecanumRobot.construct []).trimvalue + 1/4 ∧
      (MecanumRobot.construct []).trimvalue + 1/4 < MAX_CURVATURE_CORRECTION := by
    norm_num [MecanumRobot.construct, MecanumRobot.freshFrom,
      load_persistent_params, read_param, MAX_CURVATURE_CORRECTION]
  have habs : read_param ([] : PersistentParams) "trim" = none := rfl
  refine ⟨?_, (h.1 hin).2.2.1, h.2.2 habs⟩
  rw [(h.1 hin).1]
  norm_num [write_param, MecanumRobot.construct, MecanumRobot.freshFrom,
    load_persistent_params, read_param]

/-- Claim C1: on every Motion Control Loop tick, estop set or command age
strictly over the staleness threshold (1000 ms) forces all four wheel
setpoints to neutral regardless of the stored commanded velocities; otherwise
the four setpoints written are exactly the motion controller's output for the
snapshotted commanded velocities and measured wheel speeds. -/
theorem motors_control_tick_spec (mc : MecanumMotionController)
    (time_now : Int) (r : MecanumRobot) :
    (r.estop = true ∨
        CONTROL_LOOP_TIMEOUT_MS < time_now - r.robotstatus.cmd_ts →
      (motors_control_tick mc time_now r).motors_speeds =
        { front_left := MOTOR_NEUTRAL, front_right := MOTOR_NEUTRAL
          back_left := MOTOR_NEUTRAL, back_right := MOTOR_NEUTRAL }) ∧
    (r.estop = false ∧
        time_now - r.robotstatus.cmd_ts ≤ CONTROL_LOOP_TIMEOUT_MS →
      (motors_control_tick mc time_now r).motors_speeds =
        { front_left := (mc.runMotionControl
            { linear_velocity := r.robotstatus.cmd_linear_vel
              trans_velocity := r.robotstatus.cmd_trans_vel
              angular_velocity := r.robotstatus.cmd_angular_vel }
            { fl := 0, fr := 0, rl := 0, rr := 0 }
            { fl := r.robotstatus.motor1_rpm, fr := r.robotstatus.motor2_rpm
              rl := r.robotstatus.motor3_rpm, rr := r.robotstatus.motor4_rpm }).fl
          front_right := (mc.runMotionControl
            { linear_velocity := r.robotstatus.cmd_linear_vel
              trans_velocity := r.robotstatus.cmd_trans_vel
              angular_velocity := r.robotstatus.cmd_angular_vel }
            { fl := 0, fr := 0, rl := 0, rr := 0 }
            { fl := r.robotstatus.motor1_rpm, fr := r.robotstatus.motor2_rpm
              rl := r.robotstatus.motor3_rpm, rr := r.robotstatus.motor4_rpm }).fr
          back_left := (mc.runMotionControl
            { linear_velocity := r.robotstatus.cmd_linear_vel
              trans_velocity := r.robotstatus.cmd_trans_vel
              angular_velocity := r.robotstatus.cmd_angular_vel }
            { fl := 0, fr := 0, rl := 0, rr := 0 }
            { fl := r.robotstatus.motor1_rpm, fr := r.robotstatus.motor2_rpm
              rl := r.robotstatus.motor3_rpm, rr := r.robotstatus.motor4_rpm }).rl
          back_right := (mc.runMotionControl
            { linear_velocity := r.robotstatus.cmd_linear_vel
              trans_velocity := r.robotstatus.cmd_trans_vel
              angular_velocity := r.robotstatus.cmd_angular_vel }
            { fl := 0, fr := 0, rl := 0, rr := 0 }
            { fl := r.robotstatus.motor1_rpm, fr := r.robotstatus.motor2_rpm
              rl := r.robotstatus.motor3_rpm, rr := r.robotstatus.motor4_rpm }).rr }) := by
  constructor
  · intro hstop
    have hcond : ¬(r.estop = false ∧
        time_now - r.robotstatus.cmd_ts ≤ CONTROL_LOOP_TIMEOUT_MS) := by
      rcases hstop with he | hage
      · intro hc; rw [he] at hc; exact Bool.noConfusion hc.1
      · intro hc; exact absurd hc.2 (not_le.mpr hage)
    unfold motors_control_tick
    rw [if_neg hcond]
  · intro hfresh
    unfold motors_control_tick
    rw [if_pos hfresh]

/-- An example motion controller whose setpoint output is visibly nonzero, to
exhibit that the safety gate overrides it. -/
def mcExample : MecanumMotionController :=
  { runMotionControl := fun v _ m =>
      { fl := v.linear_velocity + m.fl + 5, fr := 6, rl := 7, rr := 8 }
    getMeasuredVelocities := fun m =>
      { linear_velocity := m.fl, trans_velocity := m.fr
        angular_velocity := m.rl } }

/-- A robot state carrying a fresh, nonzero velocity command stamped at 0 ms. -/
def stateC1 : MecanumRobot :=
  { robotstatus := { robotData.zeroed with cmd_linear_vel := 2, cmd_ts := 0 }
    estop := false
    motors_speeds :=
      { front_left := 0, front_right := 0, back_left := 0, back_right := 0 }
    trimvalue := 0
    left_trim := 1
    right_trim := 1
    params_store := [] }

/-- Claim C1 witness: with threshold 1000 ms, a command of age 1001 ms forces
neutral setpoints; estop forces neutral setpoints even for a fresh, nonzero
command; and a fresh command without estop takes the controller's output. -/
theorem motors_control_tick_spec_witness :
    (MecanumRobot.motors_control_tick mcExample 1001 stateC1).motors_speeds =
      { front_left := 0, front_right := 0, back_left := 0, back_right := 0 } ∧
    (MecanumRobot.motors_control_tick mcExample 0
        (stateC1.send_estop true)).motors_speeds =
      { front_left := 0, front_right := 0, back_left := 0, back_right := 0 } ∧
    (MecanumRobot.motors_control_tick mcExample 0 stateC1).motors_speeds =
      { front_left := 7, front_right := 6, back_left := 7, back_right := 8 } := by
  have h1 := (motors_control_tick_spec mcExample 1001 stateC1).1
    (Or.inr (by norm_num [stateC1, robotData.zeroed, CONTROL_LOOP_TIMEOUT_MS]))
  have h2 := (motors_control_tick_spec mcExample 0 (stateC1.send_estop true)).1
    (Or.inl rfl)
  have h3 := (motors_control_tick_spec mcExample 0 stateC1).2
    (by norm_num [stateC1, robotData.zeroed, CONTROL_LOOP_TIMEOUT_MS])
  refine ⟨?_, ?_, ?_⟩
  · rw [h1]; norm_num [MOTOR_NEUTRAL]
  · rw [h2]; norm_num [MOTOR_NEUTRAL]
  · rw [h3]; norm_num [mcExample, stateC1, robotData.zeroed]

lemma send_command_message_fields (r : MecanumRobot) (vid : ℕ) :
    (send_command_message r vid).vescId = vid ∧
    ((send_command_message r vid).commandType = vescPacketFlags.CURRENT ↔
      r.motors_speeds.at vid = MOTOR_NEUTRAL ∧
      r.robotstatus.linear_vel = MOTOR_NEUTRAL ∧
      r.robotstatus.trans_vel = MOTOR_NEUTRAL ∧
      r.robotstatus.angular_vel = MOTOR_NEUTRAL) ∧
    ((send_command_message r vid).commandType = vescPacketFlags.CURRENT →
      (send_command_message r vid).commandValue = MOTOR_NEUTRAL) ∧
    ((send_command_message r vid).commandType = vescPacketFlags.DUTY →
      (send_command_message r vid).commandValue = r.motors_speeds.at vid) := by
  unfold send_command_message
  by_cases h : r.motors_speeds.at vid = MOTOR_NEUTRAL ∧
      r.robotstatus.linear_vel = MOTOR_NEUTRAL ∧
      r.robotstatus.trans_vel = MOTOR_NEUTRAL ∧
      r.robotstatus.angular_vel = MOTOR_NEUTRAL
  · rw [if_pos h, if_pos h]
    exact ⟨rfl, ⟨fun _ => h, fun _ => rfl⟩, fun _ => rfl,
           fun hd => vescPacketFlags.noConfusion hd⟩
  · rw [if_neg h, if_neg h]
    exact ⟨rfl, ⟨fun hc => vescPacketFlags.noConfusion hc, fun hp => absurd hp h⟩,
           fun hc => vescPacketFlags.noConfusion hc, fun _ => rfl⟩

/-- Claim C5: each Command Dispatch Loop tick emits one message per wheel in
the fixed order front-left, front-right, back-left, back-right; a wheel is put
in the low-power hold mode (type CURRENT, neutral value) exactly when its own
setpoint and all three measured robot velocities are at neutral, and otherwise
is sent a DUTY message carrying its current signed setpoint. -/
theorem send_command_tick_spec (r : MecanumRobot) :
    (send_command_tick r).map vescChannelCommand.vescId =
      [VESC_IDS.FRONT_LEFT, VESC_IDS.FRONT_RIGHT,
       VESC_IDS.BACK_LEFT, VESC_IDS.BACK_RIGHT] ∧
    ∀ msg ∈ send_command_tick r,
      ((msg.commandType = vescPacketFlags.CURRENT ↔
          r.motors_speeds.at msg.vescId = MOTOR_NEUTRAL ∧
          r.robotstatus.linear_vel = MOTOR_NEUTRAL ∧
          r.robotstatus.trans_vel = MOTOR_NEUTRAL ∧
          r.robotstatus.angular_vel = MOTOR_NEUTRAL) ∧
       (msg.commandType = vescPacketFlags.CURRENT →
          msg.commandValue = MOTOR_NEUTRAL) ∧
       (msg.commandType = vescPacketFlags.DUTY →
          msg.commandValue = r.motors_speeds.at msg.vescId)) := by
  constructor
  · rfl
  · intro msg hmsg
    simp only [send_command_tick, List.map_cons, List.map_nil, List.mem_cons,
      List.mem_singleton, List.not_mem_nil, or_false] at hmsg
    rcases hmsg with h | h | h | h <;> subst h
    · have hf := send_command_message_fields r VESC_IDS.FRONT_LEFT
      rw [hf.1]; exact hf.2
    · have hf := send_command_message_fields r VESC_IDS.FRONT_RIGHT
      rw [hf.1]; exact hf.2
    · have hf := send_command_message_fields r VESC_IDS.BACK_LEFT
      rw [hf.1]; exact hf.2
    · have hf := send_command_message_fields r VESC_IDS.BACK_RIGHT
      rw [hf.1]; exact hf.2

/-- A robot state at rest (all setpoints and measured velocities neutral)
except that the back-right wheel carries a nonzero setpoint. -/
def stateC5 : MecanumRobot :=
  { robotstatus := robotData.zeroed
    estop := false
    motors_speeds :=
      { front_left := 0, front_right := 0, back_left := 0, back_right := 3 }
    trimvalue := 0
    left_trim := 1
    right_trim := 1
    params_store := [] }

/-- Claim C5 witness: on `stateC5` the tick emits the four wheel ids in order;
the front-left wheel (at rest, but measured velocities all neutral) gets a
CURRENT hold at neutral, while the back-right wheel (nonzero setpoint) gets a
DUTY message carrying its setpoint 3. -/
theorem send_command_tick_spec_witness :
    (MecanumRobot.send_command_tick stateC5).map vescChannelCommand.vescId =
      [0, 1, 2, 3] ∧
    (MecanumRobot.send_command_message stateC5 VESC_IDS.FRONT_LEFT).commandType =
      vescPacketFlags.CURRENT ∧
    (MecanumRobot.send_command_message stateC5 VESC_IDS.FRONT_LEFT).commandValue =
      0 ∧
    (MecanumRobot.send_command_message stateC5 VESC_IDS.BACK_RIGHT).commandType =
      vescPacketFlags.DUTY ∧
    (MecanumRobot.send_command_message stateC5 VESC_IDS.BACK_RIGHT).commandValue =
      3 := by
  have h := send_command_tick_spec stateC5
  have hmemFL : MecanumRobot.send_command_message stateC5 VESC_IDS.FRONT_LEFT ∈
      MecanumRobot.send_command_tick stateC5 := by
    simp [MecanumRobot.send_command_tick]
  have hmemBR : MecanumRobot.send_command_message stateC5 VESC_IDS.BACK_RIGHT ∈
      MecanumRobot.send_command_tick stateC5 := by
    simp [MecanumRobot.send_command_tick]
  have hFL := h.2 _ hmemFL
  have hBR := h.2 _ hmemBR
  have hidFL : (MecanumRobot.send_command_message stateC5
      VESC_IDS.FRONT_LEFT).vescId = VESC_IDS.FRONT_LEFT := rfl
  have hidBR : (MecanumRobot.send_command_message stateC5
      VESC_IDS.BACK_RIGHT).vescId = VESC_IDS.BACK_RIGHT := rfl
  rw [hidFL] at hFL
  rw [hidBR] at hBR
  have hcurFL : (MecanumRobot.send_command_message stateC5
      VESC_IDS.FRONT_LEFT).commandType = vescPacketFlags.CURRENT := by
    refine hFL.1.mpr ?_
    refine ⟨?_, rfl, rfl, rfl⟩
    norm_num [stateC5, MotorSpeeds.at, MOTOR_NEUTRAL, VESC_IDS.FRONT_LEFT,
      VESC_IDS.FRONT_RIGHT, VESC_IDS.BACK_LEFT, VESC_IDS.BACK_RIGHT]
  have hdutyBR : (MecanumRobot.send_command_message stateC5
      VESC_IDS.BACK_RIGHT).commandType = vescPacketFlags.DUTY := by
    rcases hty : (MecanumRobot.send_command_message stateC5
        VESC_IDS.BACK_RIGHT).commandType with _ | _
    · exfalso
      have := hBR.1.mp hty
      revert this
      norm_num [stateC5, MotorSpeeds.at, MOTOR_NEUTRAL, VESC_IDS.FRONT_LEFT,
        VESC_IDS.FRONT_RIGHT, VESC_IDS.BACK_LEFT, VESC_IDS.BACK_RIGHT]
    · rfl
  refine ⟨?_, hcurFL, ?_, hdutyBR, ?_⟩
  · simpa [VESC_IDS.FRONT_LEFT, VESC_IDS.FRONT_RIGHT, VESC_IDS.BACK_LEFT,
      VESC_IDS.BACK_RIGHT] using h.1
  · simpa [MOTOR_NEUTRAL] using hFL.2.1 hcurFL
  · have := hBR.2.2 hdutyBR
    rw [this]
    norm_num [stateC5, MotorSpeeds.at, VESC_IDS.FRONT_LEFT,
      VESC_IDS.FRONT_RIGHT, VESC_IDS.BACK_LEFT, VESC_IDS.BACK_RIGHT]

/-- Claim C6: a valid inbound message whose motor identifier matches one of
the four known wheels updates exactly that wheel's three telemetry fields
(speed, identifier, current) and nothing else; an invalid payload, or a valid
payload with an unknown motor identifier, leaves the entire robot state
unchanged with no error. -/
theorem unpack_comm_response_spec (m : vescChannelMessage) (r : MecanumRobot) :
    (m.dataValid = false → r.unpack_comm_response m = r) ∧
    (m.dataValid = true →
      m.vescId ≠ VESC_IDS.FRONT_LEFT → m.vescId ≠ VESC_IDS.FRONT_RIGHT →
      m.vescId ≠ VESC_IDS.BACK_LEFT → m.vescId ≠ VESC_IDS.BACK_RIGHT →
      r.unpack_comm_response m = r) ∧
    (m.dataValid = true → m.vescId = VESC_IDS.FRONT_LEFT →
      r.unpack_comm_response m =
        { r with robotstatus :=
            { r.robotstatus with motor1_rpm := m.rpm, motor1_id := m.vescId
                                 motor1_current := m.current } }) ∧
    (m.dataValid = true → m.vescId = VESC_IDS.FRONT_RIGHT →
      r.unpack_comm_response m =
        { r with robotstatus :=
            { r.robotstatus with motor2_rpm := m.rpm, motor2_id := m.vescId
                                 motor2_current := m.current } }) ∧
    (m.dataValid = true → m.vescId = VESC_IDS.BACK_LEFT →
      r.unpack_comm_response m =
        { r with robotstatus :=
            { r.robotstatus with motor3_rpm := m.rpm, motor3_id := m.vescId
                                 motor3_current := m.current } }) ∧
    (m.dataValid = true → m.vescId = VESC_IDS.BACK_RIGHT →
      r.unpack_comm_response m =
        { r with robotstatus :=
            { r.robotstatus with motor4_rpm := m.rpm, motor4_id := m.vescId
                                 motor4_current := m.current } }) := by
  unfold unpack_comm_response
  refine ⟨fun hv => by rw [hv]; rfl, ?_, ?_, ?_, ?_, ?_⟩
  · intro hv h1 h2 h3 h4
    rw [hv, if_pos rfl, if_neg h1, if_neg h2, if_neg h3, if_neg h4]
  · intro hv h1
    rw [hv, if_pos rfl, if_pos h1]
  · intro hv h2
    have h1 : m.vescId ≠ VESC_IDS.FRONT_LEFT := by
      rw [h2]; unfold VESC_IDS.FRONT_RIGHT VESC_IDS.FRONT_LEFT; omega
    rw [hv, if_pos rfl, if_neg h1, if_pos h2]
  · intro hv h3
    have h1 : m.vescId ≠ VESC_IDS.FRONT_LEFT := by
      rw [h3]; unfold VESC_IDS.BACK_LEFT VESC_IDS.FRONT_LEFT; omega
    have h2 : m.vescId ≠ VESC_IDS.FRONT_RIGHT := by
      rw [h3]; unfold VESC_IDS.BACK_LEFT VESC_IDS.FRONT_RIGHT; omega
    rw [hv, if_pos rfl, if_neg h1, if_neg h2, if_pos h3]
  · intro hv h4
    have h1 : m.vescId ≠ VESC_IDS.FRONT_LEFT := by
      rw [h4]; unfold VESC_IDS.BACK_RIGHT VESC_IDS.FRONT_LEFT; omega
    have h2 : m.vescId ≠ VESC_IDS.FRONT_RIGHT := by
      rw [h4]; unfold VESC_IDS.BACK_RIGHT VESC_IDS.FRONT_RIGHT; omega
    have h3 : m.vescId ≠ VESC_IDS.BACK_LEFT := by
      rw [h4]; unfold VESC_IDS.BACK_RIGHT VESC_IDS.BACK_LEFT; omega
    rw [hv, if_pos rfl, if_neg h1, if_neg h2, if_neg h3, if_pos h4]

/-- A robot state used to exercise the telemetry demultiplexer. -/
def stateC6 : MecanumRobot := MecanumRobot.construct []

/-- Claim C6 witness: an invalid message and a valid message with unknown
identifier 9 both leave the state unchanged; a valid front-left message sets
exactly that wheel's rpm, id and current. -/
theorem unpack_comm_response_spec_witness :
    stateC6.unpack_comm_response
      { dataValid := false, vescId := 0, rpm := 5, current := 6 } = stateC6 ∧
    stateC6.unpack_comm_response
      { dataValid := true, vescId := 9, rpm := 5, current := 6 } = stateC6 ∧
    stateC6.unpack_comm_response
      { dataValid := true, vescId := 0, rpm := 5, current := 6 } =
      { stateC6 with robotstatus :=
          { stateC6.robotstatus with motor1_rpm := 5, motor1_id := 0
                                     motor1_current := 6 } } := by
  refine ⟨?_, ?_, ?_⟩
  · exact (unpack_comm_response_spec
      { dataValid := false, vescId := 0, rpm := 5, current := 6 } stateC6).1 rfl
  · exact (unpack_comm_response_spec
      { dataValid := true, vescId := 9, rpm := 5, current := 6 } stateC6).2.1
      rfl (by decide) (by decide) (by decide) (by decide)
  · exact (unpack_comm_response_spec
      { dataValid := true, vescId := 0, rpm := 5, current := 6 } stateC6).2.2.1
      rfl rfl

/-- Claim C7: `set_robot_velocity` overwrites the commanded linear, angular
and translational velocities with the corresponding entries of the control
array (slots 0, 1 and 3), stamps the command timestamp with "now", and leaves
every other field of the robot state (measured velocities, wheel telemetry,
setpoints, estop flag, trim) unchanged. -/
theorem set_robot_velocity_spec (c0 c1 c2 c3 : ℚ) (now : Int)
    (r : MecanumRobot) :
    (r.set_robot_velocity c0 c1 c2 c3 now).robotstatus.cmd_linear_vel = c0 ∧
    (r.set_robot_velocity c0 c1 c2 c3 now).robotstatus.cmd_angular_vel = c1 ∧
    (r.set_robot_velocity c0 c1 c2 c3 now).robotstatus.cmd_trans_vel = c3 ∧
    (r.set_robot_velocity c0 c1 c2 c3 now).robotstatus.cmd_ts = now ∧
    (r.set_robot_velocity c0 c1 c2 c3 now).robotstatus.linear_vel =
      r.robotstatus.linear_vel ∧
    (r.set_robot_velocity c0 c1 c2 c3 now).robotstatus.trans_vel =
      r.robotstatus.trans_vel ∧
    (r.set_robot_velocity c0 c1 c2 c3 now).robotstatus.angular_vel =
      r.robotstatus.angular_vel ∧
    (r.set_robot_velocity c0 c1 c2 c3 now).robotstatus.motor1_rpm =
      r.robotstatus.motor1_rpm ∧
    (r.set_robot_velocity c0 c1 c2 c3 now).robotstatus.motor1_id =
      r.robotstatus.motor1_id ∧
    (r.set_robot_velocity c0 c1 c2 c3 now).robotstatus.motor1_current =
      r.robotstatus.motor1_current ∧
    (r.set_robot_velocity c0 c1 c2 c3 now).robotstatus.motor2_rpm =
      r.robotstatus.motor2_rpm ∧
    (r.set_robot_velocity c0 c1 c2 c3 now).robotstatus.motor2_id =
      r.robotstatus.motor2_id ∧
    (r.set_robot_velocity c0 c1 c2 c3 now).robotstatus.motor2_current =
      r.robotstatus.motor2_current ∧
    (r.set_robot_velocity c0 c1 c2 c3 now).robotstatus.motor3_rpm =
      r.robotstatus.motor3_rpm ∧
    (r.set_robot_velocity c0 c1 c2 c3 now).robotstatus.motor3_id =
      r.robotstatus.motor3_id ∧
    (r.set_robot_velocity c0 c1 c2 c3 now).robotstatus.motor3_current =
      r.robotstatus.motor3_current ∧
    (r.set_robot_velocity c0 c1 c2 c3 now).robotstatus.motor4_rpm =
      r.robotstatus.motor4_rpm ∧
    (r.set_robot_velocity c0 c1 c2 c3 now).robotstatus.motor4_id =
      r.robotstatus.motor4_id ∧
    (r.set_robot_velocity c0 c1 c2 c3 now).robotstatus.motor4_current =
      r.robotstatus.motor4_current ∧
    (r.set_robot_velocity c0 c1 c2 c3 now).estop = r.estop ∧
    (r.set_robot_velocity c0 c1 c2 c3 now).motors_speeds = r.motors_speeds ∧
    (r.set_robot_velocity c0 c1 c2 c3 now).trimvalue = r.trimvalue ∧
    (r.set_robot_velocity c0 c1 c2 c3 now).left_trim = r.left_trim ∧
    (r.set_robot_velocity c0 c1 c2 c3 now).right_trim = r.right_trim ∧
    (r.set_robot_velocity c0 c1 c2 c3 now).params_store = r.params_store := by
  unfold set_robot_velocity
  exact ⟨rfl, rfl, rfl, rfl, rfl, rfl, rfl, rfl, rfl, rfl, rfl, rfl, rfl,
         rfl, rfl, rfl, rfl, rfl, rfl, rfl, rfl, rfl, rfl, rfl, rfl⟩

/-- A CAN transport constructor that always fails, exhibiting "the transport
cannot be established". -/
def commCanAlwaysFails : String → Except Int Unit :=
  fun _ => Except.error 1

/-- Claim C8 counterexample: with the communication mode "CAN" of the source
and device "internal", construction succeeds (`Except.ok`) even though no
transport is established (`none`) — here the CAN transport constructor cannot
even succeed — so "construction propagates an error whenever the Transport
cannot be established" is false as stated. -/
theorem register_comm_base_internal_no_error :
    register_comm_base "CAN" "internal" commCanAlwaysFails = Except.ok none := by
  rfl

/-- Claim C8 (amended): in CAN mode with a device other than "internal", a
transport-construction failure propagates as an error and a success yields an
established transport; for device "internal" no transport is created and no
error is raised (the SPI branch is commented out); any communication mode
other than "CAN" fails with the fatal error `-2`. -/
theorem register_comm_base_spec (comm_type device : String)
    (commCanNew : String → Except Int Unit) (e : Int) :
    (device ≠ "internal" → commCanNew device = Except.error e →
      register_comm_base "CAN" device commCanNew = Except.error e) ∧
    (device ≠ "internal" → commCanNew device = Except.ok () →
      register_comm_base "CAN" device commCanNew = Except.ok (some ())) ∧
    (register_comm_base "CAN" "internal" commCanNew = Except.ok none) ∧
    (comm_type ≠ "CAN" →
      register_comm_base comm_type device commCanNew = Except.error (-2)) := by
  refine ⟨?_, ?_, ?_, ?_⟩
  · intro hdev herr
    unfold register_comm_base
    rw [if_pos rfl, if_pos hdev, herr]
    rfl
  · intro hdev hok
    unfold register_comm_base
    rw [if_pos rfl, if_pos hdev, hok]
    rfl
  · unfold register_comm_base
    rw [if_pos rfl, if_neg (by simp)]
  · intro hmode
    unfold register_comm_base
    rw [if_neg hmode]

/-- Claim C8 witness: a failing CAN transport for device "can0" propagates its
error, and the unsupported communication mode "serial" fails with `-2`. -/
theorem register_comm_base_spec_witness :
    register_comm_base "CAN" "can0" commCanAlwaysFails = Except.error 1 ∧
    register_comm_base "serial" "can0" commCanAlwaysFails =
      Except.error (-2) := by
  have h := register_comm_base_spec "serial" "can0" commCanAlwaysFails 1
  exact ⟨h.1 (by decide) rfl, h.2.2.2 (by decide)⟩

/-- Claim C9: immediately after construction, before any public call or loop
tick, the emergency-stop flag is false and all four wheel setpoints are at the
neutral value — whatever the persistent store holds. -/
theorem construct_initial_state (store : PersistentParams) :
    (MecanumRobot.construct store).estop = false ∧
    (MecanumRobot.construct store).motors_speeds =
      { front_left := MOTOR_NEUTRAL, front_right := MOTOR_NEUTRAL
        back_left := MOTOR_NEUTRAL, back_right := MOTOR_NEUTRAL } := by
  have huntouched : ∀ (d : ℚ) (r : MecanumRobot),
      (r.update_drivetrim d).estop = r.estop ∧
      (r.update_drivetrim d).motors_speeds = r.motors_speeds := by
    intro d r
    unfold update_drivetrim
    by_cases hin : -MAX_CURVATURE_CORRECTION < r.trimvalue + d ∧
        r.trimvalue + d < MAX_CURVATURE_CORRECTION
    · rw [if_pos hin]
      by_cases h0 : 0 ≤ r.trimvalue + d
      · rw [if_pos h0]; exact ⟨rfl, rfl⟩
      · rw [if_neg h0]; exact ⟨rfl, rfl⟩
    · rw [if_neg hin]; exact ⟨rfl, rfl⟩
  unfold MecanumRobot.construct load_persistent_params
  rw [freshFrom_params_store]
  cases hread : read_param store "trim" with
  | none => exact ⟨rfl, rfl⟩
  | some v =>
    have h := huntouched v (freshFrom store)
    exact ⟨h.1, h.2⟩

/-- Claim C9 witness: constructing with a stored trim of 1/4 still starts with
estop clear and all four setpoints neutral. -/
theorem construct_initial_state_witness :
    (MecanumRobot.construct [("trim", 1/4)]).estop = false ∧
    (MecanumRobot.construct [("trim", 1/4)]).motors_speeds =
      { front_left := 0, front_right := 0, back_left := 0, back_right := 0 } := by
  have h := construct_initial_state [("trim", 1/4)]
  exact ⟨h.1, by rw [h.2]; norm_num [MOTOR_NEUTRAL]⟩

/-- Claim C10: `cycle_robot_mode` always returns `-1` and leaves the robot
state unchanged — the four-wheel mecanum variant supports only closed-loop
control, and mode cycling is unconditionally rejected. -/
theorem cycle_robot_mode_spec (r : MecanumRobot) :
    r.cycle_robot_mode = (-1, r) := rfl

end RoverRobotics
